import Mathlib

/-!
Verification of the retry / fallback-decompression utilities of
`vendor/github.com/longhorn/backupstore/util.go`.

The Go code is shallowly embedded: durations are nanosecond counts (`Nat`,
matching Go's `time.Duration`), a backend driver is a function from the
sequence number of the `Read` call to its result, streams and decompressed
readers are abstract types, and the effects of a run (sleeps performed,
`Read` calls made, streams acquired and closed, decompression attempts)
are recorded in an explicit trace structure.
-/

namespace Backupstore

/-- Go `time.Second` in nanoseconds. -/
def timeSecond : Nat := 1000000000

/-- Go `time.Minute` in nanoseconds. -/
def timeMinute : Nat := 60 * timeSecond

/-- Go `time.Hour` in nanoseconds. -/
def timeHour : Nat := 60 * timeMinute

/-- Embedding of the `backoffDuration` array of `util.go` (lines 66-77). -/
def backoffDuration : List Nat :=
  [timeSecond, 5 * timeSecond, 30 * timeSecond,
   2 * timeMinute, 5 * timeMinute, 15 * timeMinute, 30 * timeMinute,
   1 * timeHour, 2 * timeHour, 6 * timeHour]

/-- Prefix test on character lists (structural, so that the kernel can
evaluate it on literals). -/
def charsPrefix : List Char → List Char → Bool
  | [], _ => true
  | _ :: _, [] => false
  | a :: as, b :: bs => a == b && charsPrefix as bs

/-- Containment of `pat` at any position of the second list. -/
def charsContain (pat : List Char) : List Char → Bool
  | [] => charsPrefix pat []
  | c :: rest => charsPrefix pat (c :: rest) || charsContain pat rest

/-- Embedding of Go `strings.Contains s substr`: `substr` occurs as a
contiguous substring of `s`. -/
def stringsContains (s substr : String) : Bool :=
  charsContain substr.data s.data

/-- The message of Go's `compress/gzip` `gzip.ErrHeader`. -/
def gzipErrHeaderMsg : String := "gzip: invalid header"

/-- The lz4 bad-magic-number signature matched in `util.go` line 118. -/
def lz4BadMagicMsg : String := "lz4: bad magic number"

/-- Embedding of Go `errors.Wrapf(err, fmtArgs...)` from cockroachdb/errors:
the message of the wrapping error is the formatted prefix followed by
`": "` and the wrapped error's message. -/
def errorsWrap (prefixMsg errMsg : String) : String :=
  prefixMsg ++ ": " ++ errMsg

/-- Trace of one `readBlockWithRetry` invocation: its result, the sleep
durations performed in order, and the number of driver `Read` calls made. -/
structure RetryTrace (α : Type) where
  result : Except String α
  sleeps : List Nat
  reads : Nat
deriving Repr

/-- The loop body of `readBlockWithRetry` (`util.go` lines 81-94).
`driver` maps the global sequence number of a `Read` call to its outcome;
`startCall` is the sequence number of the first call made by this
invocation.  `attempts` is the Go loop's counter; `remaining` is
`backoffDuration[attempts:]`, so the Go guard `attempts < len(backoffDuration)`
is the test whether `remaining` is nonempty and `backoffDuration[attempts]`
is its head. -/
def readBlockWithRetryGo (driver : Nat → Except String α) (blkFile : String)
    (startCall : Nat) : Nat → List Nat → RetryTrace α
  | attempts, remaining =>
    match driver (startCall + attempts) with
    | Except.ok rc => ⟨Except.ok rc, [], 1⟩
    | Except.error e =>
      match remaining with
      | [] =>
        ⟨Except.error (errorsWrap
            ("failed to read block " ++ blkFile ++ " after "
              ++ toString (attempts + 1) ++ " attempts") e), [], 1⟩
      | d :: rest =>
        let t := readBlockWithRetryGo driver blkFile startCall (attempts + 1) rest
        ⟨t.result, d :: t.sleeps, t.reads + 1⟩

/-- Embedding of `readBlockWithRetry` (`util.go` lines 80-95), starting with
`attempts = 0` and the full backoff schedule. -/
def readBlockWithRetry (driver : Nat → Except String α) (blkFile : String)
    (startCall : Nat) : RetryTrace α :=
  readBlockWithRetryGo driver blkFile startCall 0 backoffDuration

/-- The alternative-decompression classification of `util.go` lines 115-120:
gzip header signature selects `"lz4"`, else the lz4 bad-magic signature
selects `"gzip"`, else no fallback (`""`). -/
def alternativeDecompressionFor (errMsg : String) : String :=
  if stringsContains errMsg gzipErrHeaderMsg then "lz4"
  else if stringsContains errMsg lz4BadMagicMsg then "gzip"
  else ""

/-- Trace of one `DecompressAndVerifyWithFallback` invocation.
`acquired` lists the streams obtained from successful `readBlockWithRetry`
calls in acquisition order; `closed` lists the streams closed by the
deferred `Close` calls in execution (LIFO) order; `attemptsMade` lists each
`util.DecompressAndVerify` call as (codec, stream); `selectedAlternative`
is the value of the local variable `alternativeDecompression` (`""` when the
classification was never reached or selected nothing). -/
structure DVTrace (α β : Type) where
  result : Except String β
  sleeps : List Nat
  readCalls : Nat
  acquired : List α
  closed : List α
  attemptsMade : List (String × α)
  selectedAlternative : String
deriving Repr

/-- Embedding of `DecompressAndVerifyWithFallback` (`util.go` lines 99-140).
`decompressAndVerify` embeds the external capability
`util.DecompressAndVerify(codec, stream, checksum)`. -/
def DecompressAndVerifyWithFallback (driver : Nat → Except String α)
    (decompressAndVerify : String → α → String → Except String β)
    (blkFile decompression checksum : String) : DVTrace α β :=
  match (readBlockWithRetry driver blkFile 0).result with
  | Except.error e =>
    ⟨Except.error e, (readBlockWithRetry driver blkFile 0).sleeps,
     (readBlockWithRetry driver blkFile 0).reads, [], [], [], ""⟩
  | Except.ok rc =>
    match decompressAndVerify decompression rc checksum with
    | Except.ok r =>
      ⟨Except.ok r, (readBlockWithRetry driver blkFile 0).sleeps,
       (readBlockWithRetry driver blkFile 0).reads,
       [rc], [rc], [(decompression, rc)], ""⟩
    | Except.error err =>
      if alternativeDecompressionFor err ≠ "" then
        match (readBlockWithRetry driver blkFile
                 (readBlockWithRetry driver blkFile 0).reads).result with
        | Except.error e2 =>
          ⟨Except.error e2,
           (readBlockWithRetry driver blkFile 0).sleeps
             ++ (readBlockWithRetry driver blkFile
                   (readBlockWithRetry driver blkFile 0).reads).sleeps,
           (readBlockWithRetry driver blkFile 0).reads
             + (readBlockWithRetry driver blkFile
                  (readBlockWithRetry driver blkFile 0).reads).reads,
           [rc], [rc], [(decompression, rc)], alternativeDecompressionFor err⟩
        | Except.ok retriedRc =>
          match decompressAndVerify (alternativeDecompressionFor err)
                  retriedRc checksum with
          | Except.error e3 =>
            ⟨Except.error (errorsWrap
                ("fallback decompression also failed for block " ++ blkFile) e3),
             (readBlockWithRetry driver blkFile 0).sleeps
               ++ (readBlockWithRetry driver blkFile
                     (readBlockWithRetry driver blkFile 0).reads).sleeps,
             (readBlockWithRetry driver blkFile 0).reads
               + (readBlockWithRetry driver blkFile
                    (readBlockWithRetry driver blkFile 0).reads).reads,
             [rc, retriedRc], [retriedRc, rc],
             [(decompression, rc), (alternativeDecompressionFor err, retriedRc)],
             alternativeDecompressionFor err⟩
          | Except.ok r2 =>
            ⟨Except.ok r2,
             (readBlockWithRetry driver blkFile 0).sleeps
               ++ (readBlockWithRetry driver blkFile
                     (readBlockWithRetry driver blkFile 0).reads).sleeps,
             (readBlockWithRetry driver blkFile 0).reads
               + (readBlockWithRetry driver blkFile
                    (readBlockWithRetry driver blkFile 0).reads).reads,
             [rc, retriedRc], [retriedRc, rc],
             [(decompression, rc), (alternativeDecompressionFor err, retriedRc)],
             alternativeDecompressionFor err⟩
      else
        ⟨Except.error (errorsWrap
            ("decompression verification failed for block " ++ blkFile) err),
         (readBlockWithRetry driver blkFile 0).sleeps,
         (readBlockWithRetry driver blkFile 0).reads,
         [rc], [rc], [(decompression, rc)], alternativeDecompressionFor err⟩

/-! ### Unfolding lemmas for the retry loop -/

theorem readBlockWithRetryGo_ok {α : Type} (driver : Nat → Except String α)
    (blkFile : String) (startCall attempts : Nat) (remaining : List Nat) (rc : α)
    (h : driver (startCall + attempts) = Except.ok rc) :
    readBlockWithRetryGo driver blkFile startCall attempts remaining =
      ⟨Except.ok rc, [], 1⟩ := by
  unfold readBlockWithRetryGo
  rw [h]

theorem readBlockWithRetryGo_err_nil {α : Type} (driver : Nat → Except String α)
    (blkFile : String) (startCall attempts : Nat) (e : String)
    (h : driver (startCall + attempts) = Except.error e) :
    readBlockWithRetryGo driver blkFile startCall attempts [] =
      ⟨Except.error (errorsWrap
          ("failed to read block " ++ blkFile ++ " after "
            ++ toString (attempts + 1) ++ " attempts") e), [], 1⟩ := by
  unfold readBlockWithRetryGo
  rw [h]

theorem readBlockWithRetryGo_err_cons {α : Type} (driver : Nat → Except String α)
    (blkFile : String) (startCall attempts : Nat) (d : Nat) (rest : List Nat)
    (e : String) (h : driver (startCall + attempts) = Except.error e) :
    readBlockWithRetryGo driver blkFile startCall attempts (d :: rest) =
      ⟨(readBlockWithRetryGo driver blkFile startCall (attempts + 1) rest).result,
       d :: (readBlockWithRetryGo driver blkFile startCall (attempts + 1) rest).sleeps,
       (readBlockWithRetryGo driver blkFile startCall (attempts + 1) rest).reads + 1⟩ := by
  conv in readBlockWithRetryGo driver blkFile startCall attempts (d :: rest) =>
    rw [readBlockWithRetryGo]
  rw [h]

theorem backoffDuration_length : backoffDuration.length = 10 := rfl

/-- General shape of a run of the retry loop when the driver fails on the
first `k` calls of this invocation and succeeds on the next one. -/
theorem readBlockWithRetryGo_succeeds_after {α : Type}
    (driver : Nat → Except String α) (blkFile : String) (s : α)
    (k attempts startCall : Nat) (remaining : List Nat)
    (hlen : k ≤ remaining.length)
    (hfail : ∀ i, i < k → ∃ e, driver (startCall + attempts + i) = Except.error e)
    (hok : driver (startCall + attempts + k) = Except.ok s) :
    readBlockWithRetryGo driver blkFile startCall attempts remaining =
      ⟨Except.ok s, remaining.take k, k + 1⟩ := by
  induction k generalizing attempts remaining with
  | zero =>
    have h0 : driver (startCall + attempts) = Except.ok s := by simpa using hok
    simp [readBlockWithRetryGo_ok driver blkFile startCall attempts remaining s h0]
  | succ k ih =>
    obtain ⟨e, he⟩ := hfail 0 (Nat.succ_pos k)
    rw [Nat.add_zero] at he
    cases remaining with
    | nil => simp at hlen
    | cons d rest =>
      rw [readBlockWithRetryGo_err_cons driver blkFile startCall attempts d rest e he]
      have hfail' : ∀ i, i < k →
          ∃ e, driver (startCall + (attempts + 1) + i) = Except.error e := by
        intro i hi
        obtain ⟨e', he'⟩ := hfail (i + 1) (Nat.succ_lt_succ hi)
        exact ⟨e', by rw [show startCall + (attempts + 1) + i
          = startCall + attempts + (i + 1) from by omega]; exact he'⟩
      have hok' : driver (startCall + (attempts + 1) + k) = Except.ok s := by
        rw [show startCall + (attempts + 1) + k
          = startCall + attempts + (k + 1) from by omega]
        exact hok
      rw [ih (attempts + 1) rest (by simpa using hlen) hfail' hok']
      simp [List.take_succ_cons]

/-- General shape of a run of the retry loop when the driver always fails. -/
theorem readBlockWithRetryGo_all_fail {α : Type}
    (driver : Nat → Except String α) (blkFile : String) (errs : Nat → String)
    (hfail : ∀ i, driver i = Except.error (errs i))
    (remaining : List Nat) (attempts startCall : Nat) :
    readBlockWithRetryGo driver blkFile startCall attempts remaining =
      ⟨Except.error (errorsWrap
          ("failed to read block " ++ blkFile ++ " after "
            ++ toString (attempts + remaining.length + 1) ++ " attempts")
          (errs (startCall + attempts + remaining.length))),
       remaining, remaining.length + 1⟩ := by
  induction remaining generalizing attempts with
  | nil =>
    simpa using readBlockWithRetryGo_err_nil driver blkFile startCall attempts
      (errs (startCall + attempts)) (hfail _)
  | cons d rest ih =>
    rw [readBlockWithRetryGo_err_cons driver blkFile startCall attempts d rest
      (errs (startCall + attempts)) (hfail _)]
    rw [ih (attempts + 1)]
    rw [show attempts + 1 + rest.length = attempts + (rest.length + 1) from by omega]
    rw [show startCall + (attempts + 1) + rest.length
      = startCall + attempts + (rest.length + 1) from by omega]
    simp [List.length_cons]

/-- C1: if the driver fails the read of the block file exactly `k` times
(`k ≤ 10`) and then succeeds, `readBlockWithRetry` returns the stream
obtained on the `(k+1)`-th `Read` call, after exactly `k` sleeps whose
durations are `backoffDuration[0], ..., backoffDuration[k-1]` in order, and
makes no `Read` attempt after the first success (`k + 1` calls in total). -/
theorem readBlockWithRetry_fails_k_then_succeeds {α : Type}
    (driver : Nat → Except String α) (blkFile : String) (s : α) (k : Nat)
    (hk : k ≤ 10)
    (hfail : ∀ i, i < k → ∃ e, driver i = Except.error e)
    (hok : driver k = Except.ok s) :
    readBlockWithRetry driver blkFile 0 =
      ⟨Except.ok s, backoffDuration.take k, k + 1⟩ := by
  unfold readBlockWithRetry
  exact readBlockWithRetryGo_succeeds_after driver blkFile s k 0 0 backoffDuration
    (by rw [backoffDuration_length]; exact hk)
    (fun i hi => by simpa using hfail i hi)
    (by simpa using hok)

/-- Witness for C1 at `k = 2`: the driver fails twice, then returns stream
`7` on the third call; exactly two sleeps, of `backoffDuration[0]` and
`backoffDuration[1]`, are performed. -/
theorem readBlockWithRetry_fails_k_then_succeeds_witness :
    readBlockWithRetry (fun i => if i < 2 then Except.error "boom" else Except.ok 7)
        "blk" 0 =
      ⟨Except.ok 7, backoffDuration.take 2, 3⟩ :=
  readBlockWithRetry_fails_k_then_succeeds
    (fun i => if i < 2 then Except.error "boom" else Except.ok 7) "blk" 7 2
    (by decide)
    (fun i hi => ⟨"boom", by
      match i, hi with
      | 0, _ => rfl
      | 1, _ => rfl⟩)
    rfl

/-- C2: if the driver always fails, `readBlockWithRetry` performs exactly
10 sleeps (the full backoff schedule, in order), makes 11 `Read` calls in
total, and returns a `nil` stream together with a fatal error that wraps the
error of the last (11th) call and reports 11 as the total attempt count. -/
theorem readBlockWithRetry_always_fails {α : Type}
    (driver : Nat → Except String α) (blkFile : String) (errs : Nat → String)
    (hfail : ∀ i, driver i = Except.error (errs i)) :
    readBlockWithRetry driver blkFile 0 =
      ⟨Except.error (errorsWrap
          ("failed to read block " ++ blkFile ++ " after "
            ++ toString 11 ++ " attempts") (errs 10)),
       backoffDuration, 11⟩ ∧
    (readBlockWithRetry driver blkFile 0).sleeps.length = 10 := by
  have h := readBlockWithRetryGo_all_fail driver blkFile errs hfail backoffDuration 0 0
  rw [backoffDuration_length] at h
  norm_num at h
  constructor
  · unfold readBlockWithRetry
    rw [h]
  · unfold readBlockWithRetry
    rw [h]
    rfl

/-- Witness for C2: a driver that always fails with message `"io timeout"`. -/
theorem readBlockWithRetry_always_fails_witness :
    readBlockWithRetry (fun _ => (Except.error "io timeout" : Except String Nat))
        "blk" 0 =
      ⟨Except.error (errorsWrap
          ("failed to read block " ++ "blk" ++ " after "
            ++ toString 11 ++ " attempts") "io timeout"),
       backoffDuration, 11⟩ ∧
    (readBlockWithRetry (fun _ => (Except.error "io timeout" : Except String Nat))
        "blk" 0).sleeps.length = 10 :=
  readBlockWithRetry_always_fails (fun _ => Except.error "io timeout") "blk"
    (fun _ => "io timeout") (fun _ => rfl)

/-- C8: the backoff schedule consulted by `readBlockWithRetry` is the fixed
ordered sequence 1s, 5s, 30s, 2m, 5m, 15m, 30m, 1h, 2h, 6h (here in
nanoseconds, as Go's `time.Duration` counts them), of length exactly 10; as
a Lean definition it is immutable, matching the Go package-level array that
no operation of the core writes to. -/
theorem backoffDuration_is_fixed_schedule :
    backoffDuration = [1000000000, 5000000000, 30000000000, 120000000000,
      300000000000, 900000000000, 1800000000000, 3600000000000,
      7200000000000, 21600000000000] ∧ backoffDuration.length = 10 :=
  ⟨rfl, rfl⟩

/-! ### Branch-shape lemmas for `DecompressAndVerifyWithFallback` -/

theorem DV_shape_read_error {α β : Type} (driver : Nat → Except String α)
    (dav : String → α → String → Except String β)
    (blkFile decompression checksum : String) (e : String)
    (h0 : (readBlockWithRetry driver blkFile 0).result = Except.error e) :
    DecompressAndVerifyWithFallback driver dav blkFile decompression checksum =
      ⟨Except.error e, (readBlockWithRetry driver blkFile 0).sleeps,
       (readBlockWithRetry driver blkFile 0).reads, [], [], [], ""⟩ := by
  simp only [DecompressAndVerifyWithFallback, h0]

theorem DV_shape_first_ok {α β : Type} (driver : Nat → Except String α)
    (dav : String → α → String → Except String β)
    (blkFile decompression checksum : String) (rc : α) (r : β)
    (h0 : (readBlockWithRetry driver blkFile 0).result = Except.ok rc)
    (h1 : dav decompression rc checksum = Except.ok r) :
    DecompressAndVerifyWithFallback driver dav blkFile decompression checksum =
      ⟨Except.ok r, (readBlockWithRetry driver blkFile 0).sleeps,
       (readBlockWithRetry driver blkFile 0).reads,
       [rc], [rc], [(decompression, rc)], ""⟩ := by
  simp only [DecompressAndVerifyWithFallback, h0, h1]

theorem DV_shape_no_fallback {α β : Type} (driver : Nat → Except String α)
    (dav : String → α → String → Except String β)
    (blkFile decompression checksum : String) (rc : α) (err : String)
    (h0 : (readBlockWithRetry driver blkFile 0).result = Except.ok rc)
    (h1 : dav decompression rc checksum = Except.error err)
    (halt : alternativeDecompressionFor err = "") :
    DecompressAndVerifyWithFallback driver dav blkFile decompression checksum =
      ⟨Except.error (errorsWrap
          ("decompression verification failed for block " ++ blkFile) err),
       (readBlockWithRetry driver blkFile 0).sleeps,
       (readBlockWithRetry driver blkFile 0).reads,
       [rc], [rc], [(decompression, rc)], ""⟩ := by
  simp only [DecompressAndVerifyWithFallback, h0, h1, halt]
  simp

theorem DV_shape_fallback_read_error {α β : Type} (driver : Nat → Except String α)
    (dav : String → α → String → Except String β)
    (blkFile decompression checksum : String) (rc : α) (err e2 : String)
    (h0 : (readBlockWithRetry driver blkFile 0).result = Except.ok rc)
    (h1 : dav decompression rc checksum = Except.error err)
    (hne : alternativeDecompressionFor err ≠ "")
    (h2 : (readBlockWithRetry driver blkFile
            (readBlockWithRetry driver blkFile 0).reads).result = Except.error e2) :
    DecompressAndVerifyWithFallback driver dav blkFile decompression checksum =
      ⟨Except.error e2,
       (readBlockWithRetry driver blkFile 0).sleeps
         ++ (readBlockWithRetry driver blkFile
               (readBlockWithRetry driver blkFile 0).reads).sleeps,
       (readBlockWithRetry driver blkFile 0).reads
         + (readBlockWithRetry driver blkFile
              (readBlockWithRetry driver blkFile 0).reads).reads,
       [rc], [rc], [(decompression, rc)], alternativeDecompressionFor err⟩ := by
  simp only [DecompressAndVerifyWithFallback, h0, h1]
  rw [if_pos hne]
  simp only [h2]

theorem DV_shape_fallback_ok {α β : Type} (driver : Nat → Except String α)
    (dav : String → α → String → Except String β)
    (blkFile decompression checksum : String) (rc rc2 : α) (err : String) (r2 : β)
    (h0 : (readBlockWithRetry driver blkFile 0).result = Except.ok rc)
    (h1 : dav decompression rc checksum = Except.error err)
    (hne : alternativeDecompressionFor err ≠ "")
    (h2 : (readBlockWithRetry driver blkFile
            (readBlockWithRetry driver blkFile 0).reads).result = Except.ok rc2)
    (h3 : dav (alternativeDecompressionFor err) rc2 checksum = Except.ok r2) :
    DecompressAndVerifyWithFallback driver dav blkFile decompression checksum =
      ⟨Except.ok r2,
       (readBlockWithRetry driver blkFile 0).sleeps
         ++ (readBlockWithRetry driver blkFile
               (readBlockWithRetry driver blkFile 0).reads).sleeps,
       (readBlockWithRetry driver blkFile 0).reads
         + (readBlockWithRetry driver blkFile
              (readBlockWithRetry driver blkFile 0).reads).reads,
       [rc, rc2], [rc2, rc],
       [(decompression, rc), (alternativeDecompressionFor err, rc2)],
       alternativeDecompressionFor err⟩ := by
  simp only [DecompressAndVerifyWithFallback, h0, h1]
  rw [if_pos hne]
  simp only [h2, h3]

theorem DV_shape_fallback_err {α β : Type} (driver : Nat → Except String α)
    (dav : String → α → String → Except String β)
    (blkFile decompression checksum : String) (rc rc2 : α) (err e3 : String)
    (h0 : (readBlockWithRetry driver blkFile 0).result = Except.ok rc)
    (h1 : dav decompression rc checksum = Except.error err)
    (hne : alternativeDecompressionFor err ≠ "")
    (h2 : (readBlockWithRetry driver blkFile
            (readBlockWithRetry driver blkFile 0).reads).result = Except.ok rc2)
    (h3 : dav (alternativeDecompressionFor err) rc2 checksum = Except.error e3) :
    DecompressAndVerifyWithFallback driver dav blkFile decompression checksum =
      ⟨Except.error (errorsWrap
          ("fallback decompression also failed for block " ++ blkFile) e3),
       (readBlockWithRetry driver blkFile 0).sleeps
         ++ (readBlockWithRetry driver blkFile
               (readBlockWithRetry driver blkFile 0).reads).sleeps,
       (readBlockWithRetry driver blkFile 0).reads
         + (readBlockWithRetry driver blkFile
              (readBlockWithRetry driver blkFile 0).reads).reads,
       [rc, rc2], [rc2, rc],
       [(decompression, rc), (alternativeDecompressionFor err, rc2)],
       alternativeDecompressionFor err⟩ := by
  simp only [DecompressAndVerifyWithFallback, h0, h1]
  rw [if_pos hne]
  simp only [h2, h3]

/-- The local variable `alternativeDecompression` recorded in the trace is
exactly the classification of the first failure's error text, whenever the
first decompression attempt fails. -/
theorem DV_selected_is_classification {α β : Type} (driver : Nat → Except String α)
    (dav : String → α → String → Except String β)
    (blkFile decompression checksum : String) (rc : α) (err : String)
    (h0 : (readBlockWithRetry driver blkFile 0).result = Except.ok rc)
    (h1 : dav decompression rc checksum = Except.error err) :
    (DecompressAndVerifyWithFallback driver dav blkFile decompression
        checksum).selectedAlternative = alternativeDecompressionFor err := by
  by_cases halt : alternativeDecompressionFor err = ""
  · rw [DV_shape_no_fallback driver dav blkFile decompression checksum rc err
      h0 h1 halt, halt]
  · cases h2 : (readBlockWithRetry driver blkFile
        (readBlockWithRetry driver blkFile 0).reads).result with
    | error e2 =>
      rw [DV_shape_fallback_read_error driver dav blkFile decompression checksum
        rc err e2 h0 h1 halt h2]
    | ok rc2 =>
      cases h3 : dav (alternativeDecompressionFor err) rc2 checksum with
      | ok r2 =>
        rw [DV_shape_fallback_ok driver dav blkFile decompression checksum
          rc rc2 err r2 h0 h1 halt h2 h3]
      | error e3 =>
        rw [DV_shape_fallback_err driver dav blkFile decompression checksum
          rc rc2 err e3 h0 h1 halt h2 h3]

/-! ### Claim theorems about `DecompressAndVerifyWithFallback` -/

/-- C3: when the first decompress-and-verify attempt fails with a
format-mismatch signature (a nonempty alternative classification) and the
second stream acquisition through `readBlockWithRetry` succeeds, exactly one
second, fresh stream is acquired (two acquisitions in total), exactly one
fallback decompress-and-verify attempt is made with the alternate codec
(never a third), and the result is that attempt's verified reader on
success, or a fatal error wrapping the second failure with the block file
name on failure. -/
theorem DecompressAndVerifyWithFallback_fallback_once {α β : Type}
    (driver : Nat → Except String α) (dav : String → α → String → Except String β)
    (blkFile decompression checksum : String) (rc rc2 : α) (err : String)
    (h0 : (readBlockWithRetry driver blkFile 0).result = Except.ok rc)
    (h1 : dav decompression rc checksum = Except.error err)
    (hne : alternativeDecompressionFor err ≠ "")
    (h2 : (readBlockWithRetry driver blkFile
            (readBlockWithRetry driver blkFile 0).reads).result = Except.ok rc2) :
    (DecompressAndVerifyWithFallback driver dav blkFile decompression
        checksum).acquired = [rc, rc2] ∧
    (DecompressAndVerifyWithFallback driver dav blkFile decompression
        checksum).attemptsMade
      = [(decompression, rc), (alternativeDecompressionFor err, rc2)] ∧
    (DecompressAndVerifyWithFallback driver dav blkFile decompression
        checksum).result
      = match dav (alternativeDecompressionFor err) rc2 checksum with
        | Except.ok r2 => Except.ok r2
        | Except.error e3 => Except.error (errorsWrap
            ("fallback decompression also failed for block " ++ blkFile) e3) := by
  cases h3 : dav (alternativeDecompressionFor err) rc2 checksum with
  | ok r2 =>
    rw [DV_shape_fallback_ok driver dav blkFile decompression checksum
      rc rc2 err r2 h0 h1 hne h2 h3]
    exact ⟨rfl, rfl, rfl⟩
  | error e3 =>
    rw [DV_shape_fallback_err driver dav blkFile decompression checksum
      rc rc2 err e3 h0 h1 hne h2 h3]
    exact ⟨rfl, rfl, rfl⟩

/-- Witness for C3: streams are numbered by acquisition; the first attempt
with codec `"gzip"` fails with the gzip header signature, so the alternate
codec is tried on a second, fresh stream. -/
theorem DecompressAndVerifyWithFallback_fallback_once_witness :
    (DecompressAndVerifyWithFallback (fun i => Except.ok (100 + i))
        (fun codec s _ => if codec = "gzip"
          then (Except.error "gzip: invalid header" : Except String Nat)
          else Except.ok (s + 1))
        "blk" "gzip" "cs").acquired = [100, 101] ∧
    (DecompressAndVerifyWithFallback (fun i => Except.ok (100 + i))
        (fun codec s _ => if codec = "gzip"
          then (Except.error "gzip: invalid header" : Except String Nat)
          else Except.ok (s + 1))
        "blk" "gzip" "cs").attemptsMade
      = [("gzip", 100), (alternativeDecompressionFor "gzip: invalid header", 101)] ∧
    (DecompressAndVerifyWithFallback (fun i => Except.ok (100 + i))
        (fun codec s _ => if codec = "gzip"
          then (Except.error "gzip: invalid header" : Except String Nat)
          else Except.ok (s + 1))
        "blk" "gzip" "cs").result
      = match (if (alternativeDecompressionFor "gzip: invalid header") = "gzip"
            then (Except.error "gzip: invalid header" : Except String Nat)
            else Except.ok (101 + 1)) with
        | Except.ok r2 => Except.ok r2
        | Except.error e3 => Except.error (errorsWrap
            ("fallback decompression also failed for block " ++ "blk") e3) :=
  DecompressAndVerifyWithFallback_fallback_once
    (fun i => Except.ok (100 + i))
    (fun codec s _ => if codec = "gzip"
      then (Except.error "gzip: invalid header" : Except String Nat)
      else Except.ok (s + 1))
    "blk" "gzip" "cs" 100 101 "gzip: invalid header" rfl rfl (by decide) rfl

/-- C4: after a first failed decompress-and-verify attempt, the alternate
codec is selected purely by classifying the error text: the gzip
header-error signature selects `"lz4"`, otherwise the lz4 bad-magic-number
signature selects `"gzip"`, and otherwise no fallback codec is selected and
no fallback attempt is made. -/
theorem DecompressAndVerifyWithFallback_classifies_error {α β : Type}
    (driver : Nat → Except String α) (dav : String → α → String → Except String β)
    (blkFile decompression checksum : String) (rc : α) (err : String)
    (h0 : (readBlockWithRetry driver blkFile 0).result = Except.ok rc)
    (h1 : dav decompression rc checksum = Except.error err) :
    (stringsContains err gzipErrHeaderMsg = true →
      (DecompressAndVerifyWithFallback driver dav blkFile decompression
          checksum).selectedAlternative = "lz4") ∧
    (stringsContains err gzipErrHeaderMsg = false →
      stringsContains err lz4BadMagicMsg = true →
      (DecompressAndVerifyWithFallback driver dav blkFile decompression
          checksum).selectedAlternative = "gzip") ∧
    (stringsContains err gzipErrHeaderMsg = false →
      stringsContains err lz4BadMagicMsg = false →
      (DecompressAndVerifyWithFallback driver dav blkFile decompression
          checksum).selectedAlternative = "" ∧
      (DecompressAndVerifyWithFallback driver dav blkFile decompression
          checksum).attemptsMade = [(decompression, rc)]) := by
  refine ⟨?_, ?_, ?_⟩
  · intro hg
    rw [DV_selected_is_classification driver dav blkFile decompression checksum
      rc err h0 h1]
    simp [alternativeDecompressionFor, hg]
  · intro hg hl
    rw [DV_selected_is_classification driver dav blkFile decompression checksum
      rc err h0 h1]
    simp [alternativeDecompressionFor, hg, hl]
  · intro hg hl
    have halt : alternativeDecompressionFor err = "" := by
      simp [alternativeDecompressionFor, hg, hl]
    rw [DV_shape_no_fallback driver dav blkFile decompression checksum rc err
      h0 h1 halt]
    exact ⟨rfl, rfl⟩

/-- Witness for C4: a first failure carrying the lz4 bad-magic signature
selects `"gzip"`. -/
theorem DecompressAndVerifyWithFallback_classifies_error_witness :
    (stringsContains "lz4: bad magic number" gzipErrHeaderMsg = true →
      (DecompressAndVerifyWithFallback (fun i => Except.ok (100 + i))
          (fun codec s _ => if codec = "lz4"
            then (Except.error "lz4: bad magic number" : Except String Nat)
            else Except.ok (s + 1))
          "blk" "lz4" "cs").selectedAlternative = "lz4") ∧
    (stringsContains "lz4: bad magic number" gzipErrHeaderMsg = false →
      stringsContains "lz4: bad magic number" lz4BadMagicMsg = true →
      (DecompressAndVerifyWithFallback (fun i => Except.ok (100 + i))
          (fun codec s _ => if codec = "lz4"
            then (Except.error "lz4: bad magic number" : Except String Nat)
            else Except.ok (s + 1))
          "blk" "lz4" "cs").selectedAlternative = "gzip") ∧
    (stringsContains "lz4: bad magic number" gzipErrHeaderMsg = false →
      stringsContains "lz4: bad magic number" lz4BadMagicMsg = false →
      (DecompressAndVerifyWithFallback (fun i => Except.ok (100 + i))
          (fun codec s _ => if codec = "lz4"
            then (Except.error "lz4: bad magic number" : Except String Nat)
            else Except.ok (s + 1))
          "blk" "lz4" "cs").selectedAlternative = "" ∧
      (DecompressAndVerifyWithFallback (fun i => Except.ok (100 + i))
          (fun codec s _ => if codec = "lz4"
            then (Except.error "lz4: bad magic number" : Except String Nat)
            else Except.ok (s + 1))
          "blk" "lz4" "cs").attemptsMade = [("lz4", 100)]) :=
  DecompressAndVerifyWithFallback_classifies_error
    (fun i => Except.ok (100 + i))
    (fun codec s _ => if codec = "lz4"
      then (Except.error "lz4: bad magic number" : Except String Nat)
      else Except.ok (s + 1))
    "blk" "lz4" "cs" 100 "lz4: bad magic number" rfl rfl

/-- C5: when the first decompress-and-verify attempt fails with an error
carrying no format-mismatch signature (for instance a checksum mismatch),
no fallback attempt is made, no second stream is acquired, and the single
returned error wraps the original failure with the block file name. -/
theorem DecompressAndVerifyWithFallback_no_fallback_on_corruption {α β : Type}
    (driver : Nat → Except String α) (dav : String → α → String → Except String β)
    (blkFile decompression checksum : String) (rc : α) (err : String)
    (h0 : (readBlockWithRetry driver blkFile 0).result = Except.ok rc)
    (h1 : dav decompression rc checksum = Except.error err)
    (hg : stringsContains err gzipErrHeaderMsg = false)
    (hl : stringsContains err lz4BadMagicMsg = false) :
    (DecompressAndVerifyWithFallback driver dav blkFile decompression
        checksum).attemptsMade = [(decompression, rc)] ∧
    (DecompressAndVerifyWithFallback driver dav blkFile decompression
        checksum).acquired = [rc] ∧
    (DecompressAndVerifyWithFallback driver dav blkFile decompression
        checksum).readCalls = (readBlockWithRetry driver blkFile 0).reads ∧
    (DecompressAndVerifyWithFallback driver dav blkFile decompression
        checksum).result = Except.error (errorsWrap
          ("decompression verification failed for block " ++ blkFile) err) := by
  have halt : alternativeDecompressionFor err = "" := by
    simp [alternativeDecompressionFor, hg, hl]
  rw [DV_shape_no_fallback driver dav blkFile decompression checksum rc err
    h0 h1 halt]
  exact ⟨rfl, rfl, rfl, rfl⟩

/-- Witness for C5: a checksum-mismatch failure triggers no fallback. -/
theorem DecompressAndVerifyWithFallback_no_fallback_on_corruption_witness :
    (DecompressAndVerifyWithFallback (fun i => Except.ok (100 + i))
        (fun _ _ _ => (Except.error "checksum mismatch" : Except String Nat))
        "blk" "gzip" "cs").attemptsMade = [("gzip", 100)] ∧
    (DecompressAndVerifyWithFallback (fun i => Except.ok (100 + i))
        (fun _ _ _ => (Except.error "checksum mismatch" : Except String Nat))
        "blk" "gzip" "cs").acquired = [100] ∧
    (DecompressAndVerifyWithFallback (fun i => Except.ok (100 + i))
        (fun _ _ _ => (Except.error "checksum mismatch" : Except String Nat))
        "blk" "gzip" "cs").readCalls
      = (readBlockWithRetry (fun i => (Except.ok (100 + i) : Except String Nat))
          "blk" 0).reads ∧
    (DecompressAndVerifyWithFallback (fun i => Except.ok (100 + i))
        (fun _ _ _ => (Except.error "checksum mismatch" : Except String Nat))
        "blk" "gzip" "cs").result = Except.error (errorsWrap
          ("decompression verification failed for block " ++ "blk")
          "checksum mismatch") :=
  DecompressAndVerifyWithFallback_no_fallback_on_corruption
    (fun i => Except.ok (100 + i))
    (fun _ _ _ => (Except.error "checksum mismatch" : Except String Nat))
    "blk" "gzip" "cs" 100 "checksum mismatch" rfl rfl (by decide) (by decide)

/-- C6: when the first stream acquisition fails (retry exhaustion),
`DecompressAndVerifyWithFallback` returns that error unchanged and performs
no decompression or verification attempt. -/
theorem DecompressAndVerifyWithFallback_propagates_read_error {α β : Type}
    (driver : Nat → Except String α) (dav : String → α → String → Except String β)
    (blkFile decompression checksum : String) (e : String)
    (h0 : (readBlockWithRetry driver blkFile 0).result = Except.error e) :
    (DecompressAndVerifyWithFallback driver dav blkFile decompression
        checksum).result = Except.error e ∧
    (DecompressAndVerifyWithFallback driver dav blkFile decompression
        checksum).attemptsMade = [] ∧
    (DecompressAndVerifyWithFallback driver dav blkFile decompression
        checksum).acquired = [] := by
  rw [DV_shape_read_error driver dav blkFile decompression checksum e h0]
  exact ⟨rfl, rfl, rfl⟩

/-- Witness for C6: an always-failing driver exhausts the retry schedule and
the resulting error is propagated unchanged. -/
theorem DecompressAndVerifyWithFallback_propagates_read_error_witness :
    (DecompressAndVerifyWithFallback
        (fun _ => (Except.error "io timeout" : Except String Nat))
        (fun _ _ _ => (Except.ok 0 : Except String Nat))
        "blk" "gzip" "cs").result
      = Except.error (errorsWrap
          ("failed to read block " ++ "blk" ++ " after "
            ++ toString 11 ++ " attempts") "io timeout") ∧
    (DecompressAndVerifyWithFallback
        (fun _ => (Except.error "io timeout" : Except String Nat))
        (fun _ _ _ => (Except.ok 0 : Except String Nat))
        "blk" "gzip" "cs").attemptsMade = [] ∧
    (DecompressAndVerifyWithFallback
        (fun _ => (Except.error "io timeout" : Except String Nat))
        (fun _ _ _ => (Except.ok 0 : Except String Nat))
        "blk" "gzip" "cs").acquired = [] :=
  DecompressAndVerifyWithFallback_propagates_read_error
    (fun _ => (Except.error "io timeout" : Except String Nat))
    (fun _ _ _ => (Except.ok 0 : Except String Nat))
    "blk" "gzip" "cs"
    (errorsWrap ("failed to read block " ++ "blk" ++ " after "
      ++ toString 11 ++ " attempts") "io timeout")
    rfl

/-- C9: every stream acquired from the backend is closed on every exit path;
the deferred closes run in reverse (LIFO) acquisition order, so the list of
closed streams is always the reverse of the list of acquired streams. -/
theorem DecompressAndVerifyWithFallback_closes_streams {α β : Type}
    (driver : Nat → Except String α) (dav : String → α → String → Except String β)
    (blkFile decompression checksum : String) :
    (DecompressAndVerifyWithFallback driver dav blkFile decompression
        checksum).closed
      = (DecompressAndVerifyWithFallback driver dav blkFile decompression
          checksum).acquired.reverse := by
  cases h0 : (readBlockWithRetry driver blkFile 0).result with
  | error e =>
    rw [DV_shape_read_error driver dav blkFile decompression checksum e h0]
    rfl
  | ok rc =>
    cases h1 : dav decompression rc checksum with
    | ok r =>
      rw [DV_shape_first_ok driver dav blkFile decompression checksum rc r h0 h1]
      rfl
    | error err =>
      by_cases halt : alternativeDecompressionFor err = ""
      · rw [DV_shape_no_fallback driver dav blkFile decompression checksum
          rc err h0 h1 halt]
        rfl
      · cases h2 : (readBlockWithRetry driver blkFile
            (readBlockWithRetry driver blkFile 0).reads).result with
        | error e2 =>
          rw [DV_shape_fallback_read_error driver dav blkFile decompression
            checksum rc err e2 h0 h1 halt h2]
          rfl
        | ok rc2 =>
          cases h3 : dav (alternativeDecompressionFor err) rc2 checksum with
          | ok r2 =>
            rw [DV_shape_fallback_ok driver dav blkFile decompression checksum
              rc rc2 err r2 h0 h1 halt h2 h3]
            rfl
          | error e3 =>
            rw [DV_shape_fallback_err driver dav blkFile decompression checksum
              rc rc2 err e3 h0 h1 halt h2 h3]
            rfl

/-- C10: the fallback codec selection depends only on the first failure's
error text and not on the requested codec; for every requested codec the
gzip header signature yields `"lz4"` (a caller that requested `"lz4"`
re-attempts with `"lz4"` itself), the lz4 bad-magic signature (without the
gzip one) yields `"gzip"` likewise, and when both signatures occur the gzip
signature wins because it is checked first. -/
theorem DecompressAndVerifyWithFallback_selection_ignores_codec {α β : Type}
    (driver : Nat → Except String α) (dav : String → α → String → Except String β)
    (blkFile checksum c1 c2 : String) (rc : α) (err : String)
    (h0 : (readBlockWithRetry driver blkFile 0).result = Except.ok rc)
    (h1 : dav c1 rc checksum = Except.error err)
    (h2 : dav c2 rc checksum = Except.error err) :
    ((DecompressAndVerifyWithFallback driver dav blkFile c1
        checksum).selectedAlternative
      = (DecompressAndVerifyWithFallback driver dav blkFile c2
          checksum).selectedAlternative) ∧
    (stringsContains err gzipErrHeaderMsg = true →
      (DecompressAndVerifyWithFallback driver dav blkFile c1
          checksum).selectedAlternative = "lz4") ∧
    (stringsContains err gzipErrHeaderMsg = false →
      stringsContains err lz4BadMagicMsg = true →
      (DecompressAndVerifyWithFallback driver dav blkFile c1
          checksum).selectedAlternative = "gzip") ∧
    (stringsContains err gzipErrHeaderMsg = true →
      stringsContains err lz4BadMagicMsg = true →
      (DecompressAndVerifyWithFallback driver dav blkFile c1
          checksum).selectedAlternative = "lz4") := by
  have s1 := DV_selected_is_classification driver dav blkFile c1 checksum
    rc err h0 h1
  have s2 := DV_selected_is_classification driver dav blkFile c2 checksum
    rc err h0 h2
  refine ⟨by rw [s1, s2], ?_, ?_, ?_⟩
  · intro hg
    rw [s1]
    simp [alternativeDecompressionFor, hg]
  · intro hg hl
    rw [s1]
    simp [alternativeDecompressionFor, hg, hl]
  · intro hg _
    rw [s1]
    simp [alternativeDecompressionFor, hg]

/-- Witness for C10: the requested codec is `"lz4"` and the error text
contains both signatures; the selection is still `"lz4"`. -/
theorem DecompressAndVerifyWithFallback_selection_ignores_codec_witness :
    ((DecompressAndVerifyWithFallback (fun i => Except.ok (100 + i))
        (fun _ _ _ => (Except.error
          "gzip: invalid header lz4: bad magic number" : Except String Nat))
        "blk" "lz4" "cs").selectedAlternative
      = (DecompressAndVerifyWithFallback (fun i => Except.ok (100 + i))
          (fun _ _ _ => (Except.error
            "gzip: invalid header lz4: bad magic number" : Except String Nat))
          "blk" "gzip" "cs").selectedAlternative) ∧
    (stringsContains "gzip: invalid header lz4: bad magic number"
        gzipErrHeaderMsg = true →
      (DecompressAndVerifyWithFallback (fun i => Except.ok (100 + i))
          (fun _ _ _ => (Except.error
            "gzip: invalid header lz4: bad magic number" : Except String Nat))
          "blk" "lz4" "cs").selectedAlternative = "lz4") ∧
    (stringsContains "gzip: invalid header lz4: bad magic number"
        gzipErrHeaderMsg = false →
      stringsContains "gzip: invalid header lz4: bad magic number"
        lz4BadMagicMsg = true →
      (DecompressAndVerifyWithFallback (fun i => Except.ok (100 + i))
          (fun _ _ _ => (Except.error
            "gzip: invalid header lz4: bad magic number" : Except String Nat))
          "blk" "lz4" "cs").selectedAlternative = "gzip") ∧
    (stringsContains "gzip: invalid header lz4: bad magic number"
        gzipErrHeaderMsg = true →
      stringsContains "gzip: invalid header lz4: bad magic number"
        lz4BadMagicMsg = true →
      (DecompressAndVerifyWithFallback (fun i => Except.ok (100 + i))
          (fun _ _ _ => (Except.error
            "gzip: invalid header lz4: bad magic number" : Except String Nat))
          "blk" "lz4" "cs").selectedAlternative = "lz4") :=
  DecompressAndVerifyWithFallback_selection_ignores_codec
    (fun i => Except.ok (100 + i))
    (fun _ _ _ => (Except.error
      "gzip: invalid header lz4: bad magic number" : Except String Nat))
    "blk" "cs" "lz4" "gzip" 100
    "gzip: invalid header lz4: bad magic number" rfl rfl rfl

end Backupstore
